import Mathlib

/-!
Verification of the txttunnel relay (src/main.go) against its specification.

The core state is two global maps guarded by mutexes:
  var tunnels = make(map[string]*Tunnel)
  var clients = make(map[string]map[string][]chan string)
We embed Go string-keyed maps as association lists (first match wins for
lookup; assignment replaces the first matching entry or appends), Go's
"zero value on missing key" as a .getD default, and a subscriber channel
as the list of messages delivered to it so far.  HTTP handlers become
pure functions from (state, parsed request) to (state, outcome); the
transport layer (JSON decoding, routing, CORS) is outside the model, so a
request carries its already-parsed string-to-string parameter map, which
stands for the URL query in a GET and the decoded JSON body in a POST.
-/

/-- HTTP method as dispatched on by the handlers in main.go
(every handler branches on GET and POST and, where an else branch
exists, rejects other methods). -/
inductive Method where
  | GET
  | POST
  | OTHER
deriving DecidableEq, Repr

/-- type Tunnel struct from main.go: ID, Content and the sub-channel map. -/
structure Tunnel where
  ID : String
  Content : String
  SubChannels : List (String × String)
deriving DecidableEq, Repr

/-- Go map lookup on an association list: first entry with the key. -/
def assocGet {α : Type} : List (String × α) → String → Option α
  | [], _ => none
  | (k, v) :: rest, key => if k = key then some v else assocGet rest key

/-- Go map assignment on an association list: replace the first entry
with the key, or append a fresh one. -/
def assocSet {α : Type} : List (String × α) → String → α → List (String × α)
  | [], key, v => [(key, v)]
  | (k, w) :: rest, key, v =>
      if k = key then (key, v) :: rest else (k, w) :: assocSet rest key v

/-- Go string-map read with the zero value: m[k] is "" when k is absent. -/
def subGet (m : List (String × String)) (k : String) : String :=
  (assocGet m k).getD ""

/-- clients : tunnel id -> sub-channel -> list of subscriber sinks.
A sink (a chan string in main.go) is embedded as the list of messages
delivered to it so far, in order. -/
def ClientMap : Type := List (String × List (String × List (List String)))

instance : DecidableEq ClientMap := by
  unfold ClientMap
  infer_instance

/-- The sinks currently registered under (tunnel id, sub-channel);
missing keys give the empty list, as ranging over a nil Go map or slice
visits nothing. -/
def clientsGet (c : ClientMap) (tid sc : String) : List (List String) :=
  (assocGet ((assocGet c tid).getD []) sc).getD []

/-- The two global registries of main.go: tunnels and clients. -/
structure ServerState where
  tunnels : List (String × Tunnel)
  clients : ClientMap
deriving DecidableEq

/-- A parsed inbound request: method, the string-to-string parameters
(URL query for GET, decoded JSON body for POST), the remote address and
the X-Forwarded-For header value ("" when the header is absent). -/
structure Request where
  method : Method
  params : List (String × String)
  remoteAddr : String
  xForwardedFor : String
deriving DecidableEq, Repr

/-- r.URL.Query().Get(k) and requestBodyJSON[k]: "" when the key is absent. -/
def qget (r : Request) (k : String) : String :=
  subGet r.params k

/-- Outcome of getTunnelContent. -/
inductive GetResult where
  | badRequest
  | notFound
  | empty
  | found (content : String)
deriving DecidableEq, Repr

/-- Outcome of sendToTunnel. -/
inductive SendResult where
  | badRequest
  | notFound
  | ok
  | methodNotAllowed
deriving DecidableEq, Repr

/-- Outcome of createTunnel. -/
inductive CreateResult where
  | badRequest
  | created (id : String)
  | methodNotAllowed
deriving DecidableEq, Repr

/-- Outcome of streamTunnelContent (attached = the SSE loop was entered). -/
inductive StreamResult where
  | badRequest
  | notFound
  | attached
deriving DecidableEq, Repr

/-- The identical id/sub-channel extraction prologue shared by
getTunnelContent and streamTunnelContent (main.go lines 170-212 and
247-289): in a GET, subchannel and ID query parameters override
subChannel and id when non-empty; in a POST, subChannel overrides
subchannel and id overrides ID when non-empty. -/
def extractIdSub (r : Request) : String × String :=
  match r.method with
  | .GET =>
      let tid := qget r "id"
      let sc := qget r "subChannel"
      let sc := if qget r "subchannel" ≠ "" then qget r "subchannel" else sc
      let tid := if qget r "ID" ≠ "" then qget r "ID" else tid
      (tid, sc)
  | .POST =>
      let sc := if qget r "subchannel" ≠ "" then qget r "subchannel" else ""
      let sc := if qget r "subChannel" ≠ "" then qget r "subChannel" else sc
      let tid := if qget r "ID" ≠ "" then qget r "ID" else ""
      let tid := if qget r "id" ≠ "" then qget r "id" else tid
      (tid, sc)
  | .OTHER => ("", "")

/-- getTunnelContent (main.go lines 169-244): default the sub-channel to
"main", reject a missing id, 404 on an unknown tunnel, answer with the
stored content when it is non-empty and with an empty 200 otherwise.
Reads do not mutate state. -/
def getTunnelContent (st : ServerState) (r : Request) : GetResult :=
  let p := extractIdSub r
  let sc := if p.2 = "" then "main" else p.2
  if p.1 = "" then .badRequest
  else
    match assocGet st.tunnels p.1 with
    | none => .notFound
    | some t => if subGet t.SubChannels sc ≠ "" then .found (subGet t.SubChannels sc) else .empty

/-- Register a fresh sink under (tid, sc), as streamTunnelContent does at
main.go lines 315-321: allocate clients[tid] when nil, then append a new
channel (here: an empty delivery list) to clients[tid][sc]. -/
def attachClient (st : ServerState) (tid sc : String) : ServerState :=
  let inner := (assocGet st.clients tid).getD []
  let sinks := (assocGet inner sc).getD []
  { st with clients := assocSet st.clients tid (assocSet inner sc (sinks ++ [[]])) }

/-- streamTunnelContent (main.go lines 246-343): same extraction and
validation as getTunnelContent, then registration of a new subscriber
sink; no prior content is replayed to the new sink. -/
def streamTunnelContent (st : ServerState) (r : Request) : ServerState × StreamResult :=
  let p := extractIdSub r
  let sc := if p.2 = "" then "main" else p.2
  if p.1 = "" then (st, .badRequest)
  else
    match assocGet st.tunnels p.1 with
    | none => (st, .notFound)
    | some _ => (attachClient st p.1 sc, .attached)

/-- The broadcast loop of sendToTunnel (main.go lines 391-395 and
429-433): deliver content once to every sink in clients[tid][sc]; when
tid or sc is absent the range runs over nothing and the map is untouched. -/
def publishClients (c : ClientMap) (tid sc content : String) : ClientMap :=
  match assocGet c tid with
  | none => c
  | some inner =>
      match assocGet inner sc with
      | none => c
      | some sinks => assocSet c tid (assocSet inner sc (sinks.map (fun l => l ++ [content])))

/-- Write content into the tunnel's sub-channel map and broadcast it, the
shared tail of both sendToTunnel branches (main.go lines 388-395, 426-433). -/
def writeAndPublish (st : ServerState) (t : Tunnel) (tid sc content : String) :
    ServerState :=
  let t := { t with SubChannels := assocSet t.SubChannels sc content }
  { tunnels := assocSet st.tunnels tid t
    clients := publishClients st.clients tid sc content }

/-- sendToTunnel (main.go lines 345-441).  POST branch: subchannel
overrides subChannel, the sub-channel defaults to "main", ID overrides
id, then id/subChannel/content must all be non-empty; 404 on an unknown
tunnel, otherwise overwrite and broadcast.  GET branch: same overrides
but NO "main" default for the sub-channel, then the same validation,
lookup, overwrite and broadcast.  Other methods are rejected. -/
def sendToTunnel (st : ServerState) (r : Request) : ServerState × SendResult :=
  match r.method with
  | .POST =>
      let sc := if qget r "subchannel" ≠ "" then qget r "subchannel" else qget r "subChannel"
      let sc := if sc = "" then "main" else sc
      let tid := if qget r "ID" ≠ "" then qget r "ID" else qget r "id"
      let content := qget r "content"
      if tid = "" ∨ sc = "" ∨ content = "" then (st, .badRequest)
      else
        match assocGet st.tunnels tid with
        | none => (st, .notFound)
        | some t => (writeAndPublish st t tid sc content, .ok)
  | .GET =>
      let tid := qget r "id"
      let sc := qget r "subChannel"
      let content := qget r "content"
      let sc := if qget r "subchannel" ≠ "" then qget r "subchannel" else sc
      let tid := if qget r "ID" ≠ "" then qget r "ID" else tid
      if tid = "" ∨ sc = "" ∨ content = "" then (st, .badRequest)
      else
        match assocGet st.tunnels tid with
        | none => (st, .notFound)
        | some t => (writeAndPublish st t tid sc content, .ok)
  | .OTHER => (st, .methodNotAllowed)

/-- const charset of generateRandomID (main.go line 518). -/
def idCharset : List Char :=
  "ABCDEFGHJKLMNPQRSTUVWXYZ123456789!@#$%&*_-+=;:,.<>/?".toList

/-- generateRandomID (main.go lines 517-524): draw one charset index per
position from the random source and map it through the charset.  The
random source rand stands for the successive rand.Intn(len(charset))
results, each below the charset length by construction. -/
def generateRandomID (amount : Nat) (rand : Nat → Fin idCharset.length) : String :=
  ⟨(List.range amount).map (fun i => idCharset.get (rand i))⟩

/-- The fresh tunnel value installed by every create path (main.go lines
467, 484, 498): empty Content, empty sub-channel map. -/
def freshTunnel (id : String) : Tunnel :=
  { ID := id, Content := "", SubChannels := [] }

/-- tunnels[id] = &Tunnel{...}: unconditional overwrite. -/
def insertFresh (st : ServerState) (id : String) : ServerState :=
  { st with tunnels := assocSet st.tunnels id (freshTunnel id) }

/-- createTunnel (main.go lines 443-515).  POST: reject an empty id field,
otherwise install a fresh tunnel under it (overwriting any existing one).
GET: with no id query parameter, generate a 6-character random id and
install under it; with an id, install under it.  Other methods rejected.
rand supplies the random draws of generateRandomID. -/
def createTunnel (st : ServerState) (r : Request)
    (rand : Nat → Fin idCharset.length) : ServerState × CreateResult :=
  match r.method with
  | .POST =>
      if qget r "id" = "" then (st, .badRequest)
      else (insertFresh st (qget r "id"), .created (qget r "id"))
  | .GET =>
      if qget r "id" = "" then
        let tid := generateRandomID 6 rand
        (insertFresh st tid, .created tid)
      else (insertFresh st (qget r "id"), .created (qget r "id"))
  | .OTHER => (st, .methodNotAllowed)

/-- The caller identity used by the rate limiter (main.go lines 84-87):
the X-Forwarded-For header when present, the remote address otherwise. -/
def clientIp (r : Request) : String :=
  if r.xForwardedFor ≠ "" then r.xForwardedFor else r.remoteAddr

/-- Tunnel id resolution inside withRateLimit (main.go lines 94-111): in
a GET the id query parameter, falling back to ID; in a POST the id body
field, falling back to ID; "" when no id is resolvable. -/
def resolveTunnelId (r : Request) : String :=
  match r.method with
  | .GET => if qget r "id" ≠ "" then qget r "id" else qget r "ID"
  | .POST => if qget r "id" ≠ "" then qget r "id" else qget r "ID"
  | .OTHER => ""

/-- Outcome of a rate-limited endpoint: rejected by admission control, or
handled with the wrapped handler's outcome. -/
inductive RateLimited (α : Type) where
  | tooManyRequests
  | handled (a : α)
deriving DecidableEq, Repr

/-- withRateLimit (main.go lines 82-122): check the caller-identity
limiter first and reject on denial; then, only when a tunnel id is
resolvable from the request, check the tunnel limiter and reject on
denial; otherwise run the wrapped handler.  ipAllow and tunnelAllow
stand for the Allow decisions of the two limiter stores. -/
def withRateLimit {α : Type} (ipAllow tunnelAllow : String → Bool)
    (next : ServerState → Request → ServerState × α)
    (st : ServerState) (r : Request) : ServerState × RateLimited α :=
  if ipAllow (clientIp r) = false then (st, .tooManyRequests)
  else
    let tid := resolveTunnelId r
    if tid ≠ "" ∧ tunnelAllow tid = false then (st, .tooManyRequests)
    else
      let p := next st r
      (p.1, .handled p.2)

/-- The state with no tunnels and no subscribers, the initial value of
the global maps. -/
def initState : ServerState :=
  { tunnels := [], clients := [] }

/-- One core operation, as reachable through the HTTP API. -/
inductive Op where
  | createOp (r : Request) (rand : Nat → Fin idCharset.length)
  | sendOp (r : Request)
  | getOp (r : Request)
  | streamOp (r : Request)

/-- State transition of one operation (getTunnelContent never mutates). -/
def step (st : ServerState) : Op → ServerState
  | .createOp r rand => (createTunnel st r rand).1
  | .sendOp r => (sendToTunnel st r).1
  | .getOp _ => st
  | .streamOp r => (streamTunnelContent st r).1

/-- The state reached by a sequence of operations from the initial state. -/
def run (ops : List Op) : ServerState :=
  ops.foldl step initState

/-- Every value stored in any tunnel's sub-channel mapping is a
non-empty string. -/
def tunnelsNonempty (st : ServerState) : Prop :=
  ∀ id t, assocGet st.tunnels id = some t →
    ∀ sc v, assocGet t.SubChannels sc = some v → v ≠ ""

/-- Go map delete on an association list: drop every entry with the key. -/
def assocRemove {α : Type} (l : List (String × α)) (k : String) : List (String × α) :=
  l.filter (fun p => decide (p.1 ≠ k))

/-- Modelled from the spec: src/main.go has no tunnel expiry; the
repository README documents automatic cleanup of expired tunnels with a
per-tunnel time-to-live, and the spec says the sweeper wakes on a fixed
interval and removes from the registry every tunnel whose age exceeds
the configured time-to-live.  The timed registry maps each tunnel id to
its creation time; a sweep at time now keeps exactly the tunnels whose
age now - createdAt does not exceed ttl. -/
def sweepTunnels (now ttl : Nat) (reg : List (String × Nat)) : List (String × Nat) :=
  reg.filter (fun p => decide (now - p.2 ≤ ttl))

/-- Modelled from the spec: default time-to-live for a tunnel, in minutes. -/
def timeToLive : Nat := 5

/-- Modelled from the spec: default sweep interval, in minutes. -/
def cleanUpInterval : Nat := 10

/-- Outcome of the modelled delete operation. -/
inductive DeleteResult where
  | ok
  | notFound
  | unauthorized
deriving DecidableEq, Repr

/-- Modelled from the spec: src/main.go registers no delete endpoint;
the repository README documents a delete route taking the tunnel id and
the auth token issued at creation, and the spec gives
delete(id, authToken) returning Ok, NotFound or Unauthorized, removing
the tunnel only when the supplied token matches the stored one.  The
auth registry maps each tunnel id to its stored auth token; a tunnel is
retrievable exactly when its id is present. -/
def deleteTunnel (reg : List (String × String)) (id token : String) :
    DeleteResult × List (String × String) :=
  match assocGet reg id with
  | none => (.notFound, reg)
  | some stored =>
      if token = stored then (.ok, assocRemove reg id)
      else (.unauthorized, reg)

/-- A concrete random source: every draw picks charset index 0. -/
def rand0 : Nat → Fin idCharset.length := fun _ => ⟨0, by decide⟩

/-! ### Association-list lemmas -/

theorem assocGet_assocSet_self {α : Type} (m : List (String × α)) (k : String) (v : α) :
    assocGet (assocSet m k v) k = some v := by
  induction m with
  | nil => simp [assocSet, assocGet]
  | cons p rest ih =>
      by_cases h : p.1 = k
      · simp [assocSet, assocGet, h]
      · simpa [assocSet, assocGet, h] using ih

theorem assocGet_assocSet_ne {α : Type} (m : List (String × α)) (k k' : String) (v : α)
    (h : k' ≠ k) : assocGet (assocSet m k v) k' = assocGet m k' := by
  have hk : ¬ k = k' := fun hh => h hh.symm
  induction m with
  | nil => simp [assocSet, assocGet, hk]
  | cons p rest ih =>
      obtain ⟨a, b⟩ := p
      by_cases hp : a = k
      · subst hp
        simp [assocSet, assocGet, hk]
      · simp [assocSet, assocGet, hp, ih]

theorem assocGet_assocSet_cases {α : Type} (m : List (String × α)) (k id : String)
    (v t : α) (h : assocGet (assocSet m k v) id = some t) :
    (id = k ∧ t = v) ∨ (id ≠ k ∧ assocGet m id = some t) := by
  by_cases he : id = k
  · subst he
    rw [assocGet_assocSet_self] at h
    exact Or.inl ⟨rfl, (Option.some_inj.mp h).symm⟩
  · rw [assocGet_assocSet_ne m k id v he] at h
    exact Or.inr ⟨he, h⟩

theorem assocGet_mem {α : Type} (m : List (String × α)) (k : String) (v : α)
    (h : assocGet m k = some v) : (k, v) ∈ m := by
  induction m with
  | nil => simp [assocGet] at h
  | cons p rest ih =>
      obtain ⟨a, b⟩ := p
      by_cases hp : a = k
      · rw [assocGet, if_pos hp] at h
        subst hp
        have hb : b = v := Option.some_inj.mp h
        subst hb
        exact List.mem_cons_self _ _
      · rw [assocGet, if_neg hp] at h
        exact List.mem_cons_of_mem _ (ih h)

theorem not_mem_of_assocGet_none {α : Type} (m : List (String × α)) (k : String)
    (h : assocGet m k = none) : ∀ v, (k, v) ∉ m := by
  induction m with
  | nil => intro v hv; simp at hv
  | cons p rest ih =>
      obtain ⟨a, b⟩ := p
      intro v hv
      by_cases hp : a = k
      · rw [assocGet, if_pos hp] at h
        exact Option.noConfusion h
      · rw [assocGet, if_neg hp] at h
        rcases List.mem_cons.mp hv with he | hm
        · exact hp (congrArg Prod.fst he).symm
        · exact ih h v hm

theorem assocGet_eq_none_of_not_mem {α : Type} (m : List (String × α)) (k : String)
    (h : ∀ v, (k, v) ∉ m) : assocGet m k = none := by
  cases hc : assocGet m k with
  | none => rfl
  | some v => exact absurd (assocGet_mem m k v hc) (h v)

theorem assocGet_filter_none {α : Type} (m : List (String × α)) (f : String × α → Bool)
    (k : String) (h : assocGet m k = none) : assocGet (m.filter f) k = none := by
  apply assocGet_eq_none_of_not_mem
  intro v hv
  exact not_mem_of_assocGet_none m k h v (List.mem_filter.mp hv).1

theorem assocGet_assocRemove {α : Type} (l : List (String × α)) (k : String) :
    assocGet (assocRemove l k) k = none := by
  apply assocGet_eq_none_of_not_mem
  intro v hv
  have hf := (List.mem_filter.mp hv).2
  simp at hf

/-! ### Broadcast and subscriber-registry lemmas -/

theorem clientsGet_publish_self (c : ClientMap) (tid sc content : String) :
    clientsGet (publishClients c tid sc content) tid sc
      = (clientsGet c tid sc).map (fun l => l ++ [content]) := by
  unfold publishClients clientsGet
  cases h1 : assocGet c tid with
  | none => simp [h1, assocGet]
  | some inner =>
      cases h2 : assocGet inner sc with
      | none => simp [h1, h2]
      | some sinks => simp [h1, h2, assocGet_assocSet_self]

theorem clientsGet_publish_other (c : ClientMap) (tid sc content tid' sc' : String)
    (h : ¬(tid' = tid ∧ sc' = sc)) :
    clientsGet (publishClients c tid sc content) tid' sc' = clientsGet c tid' sc' := by
  unfold publishClients clientsGet
  cases h1 : assocGet c tid with
  | none => rfl
  | some inner =>
      cases h2 : assocGet inner sc with
      | none => simp [h2]
      | some sinks =>
          simp only [h2]
          by_cases ht : tid' = tid
          · subst ht
            have hs : sc' ≠ sc := fun hh => h ⟨rfl, hh⟩
            simp [assocGet_assocSet_self, assocGet_assocSet_ne _ _ _ _ hs, h1]
          · simp [assocGet_assocSet_ne _ _ _ _ ht]

theorem clientsGet_attach_self (st : ServerState) (tid sc : String) :
    clientsGet (attachClient st tid sc).clients tid sc
      = clientsGet st.clients tid sc ++ [[]] := by
  unfold attachClient clientsGet
  simp [assocGet_assocSet_self]

theorem assoc_nodup_eq {α : Type} (l : List (String × α))
    (h : (l.map Prod.fst).Nodup) (k : String) (v w : α)
    (hv : (k, v) ∈ l) (hw : (k, w) ∈ l) : v = w := by
  induction l with
  | nil => simp at hv
  | cons p rest ih =>
      obtain ⟨a, b⟩ := p
      simp only [List.map_cons, List.nodup_cons] at h
      rcases List.mem_cons.mp hv with he1 | hm1 <;> rcases List.mem_cons.mp hw with he2 | hm2
      · rw [(Prod.mk.injEq .. ▸ he1 : k = a ∧ v = b).2, (Prod.mk.injEq .. ▸ he2 : k = a ∧ w = b).2]
      · exfalso
        have hk : k = a := (Prod.mk.injEq .. ▸ he1).1
        exact h.1 (hk ▸ List.mem_map_of_mem Prod.fst hm2)
      · exfalso
        have hk : k = a := (Prod.mk.injEq .. ▸ he2).1
        exact h.1 (hk ▸ List.mem_map_of_mem Prod.fst hm1)
      · exact ih h.2 hm1 hm2

/-! ### Invariant preservation lemmas -/

theorem tunnelsNonempty_initState : tunnelsNonempty initState := by
  intro id t hget
  simp [initState, assocGet] at hget

theorem tunnelsNonempty_insertFresh (st : ServerState) (k : String)
    (h : tunnelsNonempty st) : tunnelsNonempty (insertFresh st k) := by
  intro id t hget sc v hsc
  simp only [insertFresh] at hget
  rcases assocGet_assocSet_cases _ _ _ _ _ hget with ⟨_, ht⟩ | ⟨_, hget2⟩
  · subst ht
    simp [freshTunnel, assocGet] at hsc
  · exact h id t hget2 sc v hsc

theorem tunnelsNonempty_writeAndPublish (st : ServerState) (t : Tunnel)
    (tid sc content : String) (hex : assocGet st.tunnels tid = some t)
    (hc : content ≠ "") (h : tunnelsNonempty st) :
    tunnelsNonempty (writeAndPublish st t tid sc content) := by
  intro id u hget sc' v hsc
  simp only [writeAndPublish] at hget
  rcases assocGet_assocSet_cases _ _ _ _ _ hget with ⟨_, hu⟩ | ⟨_, hget2⟩
  · subst hu
    have hsc2 : assocGet (assocSet t.SubChannels sc content) sc' = some v := hsc
    rcases assocGet_assocSet_cases _ _ _ _ _ hsc2 with ⟨_, hv⟩ | ⟨_, hsc3⟩
    · subst hv; exact hc
    · exact h tid t hex sc' v hsc3
  · exact h id u hget2 sc' v hsc

theorem tunnelsNonempty_attachClient (st : ServerState) (tid sc : String)
    (h : tunnelsNonempty st) : tunnelsNonempty (attachClient st tid sc) := by
  intro id t hget
  exact h id t hget

theorem tunnelsNonempty_step (st : ServerState) (op : Op) (h : tunnelsNonempty st) :
    tunnelsNonempty (step st op) := by
  cases op with
  | createOp r rand =>
      obtain ⟨m, ps, ra, xf⟩ := r
      cases m with
      | GET =>
          simp only [step, createTunnel]
          split
          · exact tunnelsNonempty_insertFresh st _ h
          · exact tunnelsNonempty_insertFresh st _ h
      | POST =>
          simp only [step, createTunnel]
          split
          · exact h
          · exact tunnelsNonempty_insertFresh st _ h
      | OTHER => exact h
  | sendOp r =>
      obtain ⟨m, ps, ra, xf⟩ := r
      cases m with
      | GET =>
          simp only [step, sendToTunnel]
          repeat' split
          all_goals try exact h
          all_goals
            rename_i hx t heq
            refine tunnelsNonempty_writeAndPublish st t _ _ _ heq ?_ h
            tauto
      | POST =>
          simp only [step, sendToTunnel]
          repeat' split
          all_goals try exact h
          all_goals
            rename_i hx t heq
            refine tunnelsNonempty_writeAndPublish st t _ _ _ heq ?_ h
            tauto
      | OTHER => exact h
  | getOp r => exact h
  | streamOp r =>
      simp only [step, streamTunnelContent]
      split
      · exact h
      · split
        · exact h
        · exact tunnelsNonempty_attachClient st _ _ h

theorem tunnelsNonempty_foldl (ops : List Op) (st : ServerState)
    (h : tunnelsNonempty st) : tunnelsNonempty (ops.foldl step st) := by
  induction ops generalizing st with
  | nil => exact h
  | cons op rest ih => exact ih _ (tunnelsNonempty_step st op h)

/-! ### Claim theorems -/

/-- Claim C1, counterexample at empty content: with tunnel t existing and
content c the empty string, Send is rejected as a bad request before any
mutation, and the subsequent Get answers Empty, not a content response
carrying the empty string.  So the round trip fails for c empty. -/
theorem send_get_roundtrip_cex :
    (sendToTunnel ⟨[("t", freshTunnel "t")], []⟩
        ⟨.POST, [("id", "t"), ("subChannel", "main"), ("content", "")], "", ""⟩).2 = .badRequest ∧
    getTunnelContent (sendToTunnel ⟨[("t", freshTunnel "t")], []⟩
        ⟨.POST, [("id", "t"), ("subChannel", "main"), ("content", "")], "", ""⟩).1
      ⟨.GET, [("id", "t"), ("subChannel", "main")], "", ""⟩ = .empty ∧
    GetResult.empty ≠ GetResult.found "" := by decide

/-- Claim C1 (amended to non-empty content): for every state holding a
tunnel under a non-empty id and every non-empty content c, performing
Send on sub-channel main and then Get on sub-channel main returns the
content response carrying exactly c - the last value written wins. -/
theorem send_get_roundtrip (st : ServerState) (t : Tunnel) (tid c : String)
    (hex : assocGet st.tunnels tid = some t) (htid : tid ≠ "") (hc : c ≠ "") :
    getTunnelContent
      (sendToTunnel st ⟨.POST, [("id", tid), ("subChannel", "main"), ("content", c)], "", ""⟩).1
      ⟨.GET, [("id", tid), ("subChannel", "main")], "", ""⟩ = .found c := by
  simp [sendToTunnel, getTunnelContent, extractIdSub, qget, subGet, assocGet,
    writeAndPublish, htid, hc, hex, assocGet_assocSet_self]

/-- Concrete instance of the C1 round trip: send hello, read hello back. -/
theorem send_get_roundtrip_witness :
    getTunnelContent
      (sendToTunnel ⟨[("t", freshTunnel "t")], []⟩
        ⟨.POST, [("id", "t"), ("subChannel", "main"), ("content", "hello")], "", ""⟩).1
      ⟨.GET, [("id", "t"), ("subChannel", "main")], "", ""⟩ = .found "hello" :=
  send_get_roundtrip ⟨[("t", freshTunnel "t")], []⟩ (freshTunnel "t") "t" "hello"
    (by decide) (by decide) (by decide)

/-- Claim C2: a publish on an existing tunnel succeeds and delivers the
content exactly once to every sink registered under that
(tunnel, sub-channel) pair at publish time - each such sink's delivery
log is extended by exactly one entry, the published content; sinks under
any other (tunnel, sub-channel) pair receive nothing; and a subscriber
that attaches after the publish starts with an empty delivery log, so it
receives nothing from that publish (no replay or backfill). -/
theorem publish_delivers_once (st : ServerState) (t : Tunnel) (tid sc content : String)
    (hex : assocGet st.tunnels tid = some t) (htid : tid ≠ "") (hsc : sc ≠ "")
    (hc : content ≠ "") :
    (sendToTunnel st ⟨.POST, [("id", tid), ("subChannel", sc), ("content", content)], "", ""⟩).2 = .ok ∧
    clientsGet (sendToTunnel st ⟨.POST, [("id", tid), ("subChannel", sc), ("content", content)], "", ""⟩).1.clients tid sc
      = (clientsGet st.clients tid sc).map (fun l => l ++ [content]) ∧
    (∀ tid' sc', ¬(tid' = tid ∧ sc' = sc) →
      clientsGet (sendToTunnel st ⟨.POST, [("id", tid), ("subChannel", sc), ("content", content)], "", ""⟩).1.clients tid' sc'
        = clientsGet st.clients tid' sc') ∧
    clientsGet (streamTunnelContent
        (sendToTunnel st ⟨.POST, [("id", tid), ("subChannel", sc), ("content", content)], "", ""⟩).1
        ⟨.GET, [("id", tid), ("subChannel", sc)], "", ""⟩).1.clients tid sc
      = clientsGet (sendToTunnel st ⟨.POST, [("id", tid), ("subChannel", sc), ("content", content)], "", ""⟩).1.clients tid sc ++ [[]] := by
  have hsend : sendToTunnel st ⟨.POST, [("id", tid), ("subChannel", sc), ("content", content)], "", ""⟩
      = (writeAndPublish st t tid sc content, .ok) := by
    simp [sendToTunnel, qget, subGet, assocGet, htid, hsc, hc, hex]
  refine ⟨by rw [hsend], ?_, ?_, ?_⟩
  · rw [hsend]
    exact clientsGet_publish_self _ _ _ _
  · intro tid' sc' h
    rw [hsend]
    exact clientsGet_publish_other _ _ _ _ _ _ h
  · rw [hsend]
    have hstream : streamTunnelContent (writeAndPublish st t tid sc content)
        ⟨.GET, [("id", tid), ("subChannel", sc)], "", ""⟩
        = (attachClient (writeAndPublish st t tid sc content) tid sc, .attached) := by
      simp [streamTunnelContent, extractIdSub, qget, subGet, assocGet, htid, hsc,
        writeAndPublish, assocGet_assocSet_self]
    rw [hstream]
    exact clientsGet_attach_self _ _ _

/-- Concrete instance of C2: one attached subscriber with an empty log
receives exactly one delivery of hello. -/
theorem publish_delivers_once_witness :
    clientsGet (sendToTunnel ⟨[("t", freshTunnel "t")], [("t", [("main", [[]])])]⟩
        ⟨.POST, [("id", "t"), ("subChannel", "main"), ("content", "hello")], "", ""⟩).1.clients
      "t" "main" = [["hello"]] := by
  have h := publish_delivers_once ⟨[("t", freshTunnel "t")], [("t", [("main", [[]])])]⟩
    (freshTunnel "t") "t" "main" "hello" (by decide) (by decide) (by decide) (by decide)
  rw [h.2.1]
  decide

/-- Claim C3, counterexample at the empty id: CreateTunnel with an empty
id field is rejected and creates nothing, and Get with an empty id is a
bad request, not Empty; so the claim fails as stated for id empty. -/
theorem get_after_create_empty_cex :
    (createTunnel initState ⟨.POST, [("id", "")], "", ""⟩ rand0).1 = initState ∧
    (createTunnel initState ⟨.POST, [("id", "")], "", ""⟩ rand0).2 = .badRequest ∧
    getTunnelContent initState ⟨.GET, [("id", "")], "", ""⟩ = .badRequest ∧
    GetResult.badRequest ≠ GetResult.empty := by decide

/-- Claim C3 (amended to non-empty ids): immediately after CreateTunnel
on any non-empty id - whatever the prior state, including a pre-existing
tunnel under that id, which creation replaces - Get on sub-channel main
returns Empty, not NotFound; and for every state, Get on a non-empty id
returns NotFound exactly when the id is absent from the tunnel registry. -/
theorem get_after_create_empty (st : ServerState) (id : String)
    (rand : Nat → Fin idCharset.length) (hid : id ≠ "") :
    getTunnelContent (createTunnel st ⟨.POST, [("id", id)], "", ""⟩ rand).1
      ⟨.GET, [("id", id)], "", ""⟩ = .empty ∧
    (∀ st' : ServerState,
      getTunnelContent st' ⟨.GET, [("id", id)], "", ""⟩ = .notFound
        ↔ assocGet st'.tunnels id = none) := by
  constructor
  · simp [createTunnel, insertFresh, getTunnelContent, extractIdSub, qget, subGet,
      assocGet, hid, assocGet_assocSet_self, freshTunnel]
  · intro st'
    cases h : assocGet st'.tunnels id with
    | none => simp [getTunnelContent, extractIdSub, qget, subGet, assocGet, hid, h]
    | some t =>
        simp only [getTunnelContent, extractIdSub, qget, subGet, assocGet]
        simp [hid, h]
        split <;> simp

/-- Concrete instance of C3: create tunnel t, read Empty back. -/
theorem get_after_create_empty_witness :
    getTunnelContent (createTunnel initState ⟨.POST, [("id", "t")], "", ""⟩ rand0).1
      ⟨.GET, [("id", "t")], "", ""⟩ = .empty :=
  (get_after_create_empty initState "t" rand0 (by decide)).1

/-- Claim C4, counterexample at empty content: Send to an absent id with
empty content is rejected as a bad request, not NotFound (the registries
are still unchanged). -/
theorem send_absent_notFound_cex :
    sendToTunnel initState ⟨.POST, [("id", "zzz"), ("subChannel", "main"), ("content", "")], "", ""⟩
      = (initState, .badRequest) ∧
    SendResult.badRequest ≠ SendResult.notFound := by decide

/-- Claim C4 (amended to non-empty fields): for every id absent from the
tunnel registry and non-empty id, sub-channel and content, Send - in
both its POST-body and GET-query forms - returns NotFound and the whole
server state, tunnel registry and subscriber registry alike, is returned
unchanged: no tunnel created, no sub-channel written, no delivery. -/
theorem send_absent_notFound (st : ServerState) (tid sc c : String)
    (habs : assocGet st.tunnels tid = none) (htid : tid ≠ "") (hsc : sc ≠ "") (hc : c ≠ "") :
    sendToTunnel st ⟨.POST, [("id", tid), ("subChannel", sc), ("content", c)], "", ""⟩
      = (st, .notFound) ∧
    sendToTunnel st ⟨.GET, [("id", tid), ("subChannel", sc), ("content", c)], "", ""⟩
      = (st, .notFound) := by
  constructor
  · simp [sendToTunnel, qget, subGet, assocGet, htid, hsc, hc, habs]
  · simp [sendToTunnel, qget, subGet, assocGet, htid, hsc, hc, habs]

/-- Concrete instance of C4: send to the absent id zzz, get NotFound with
the state unchanged. -/
theorem send_absent_notFound_witness :
    sendToTunnel initState ⟨.POST, [("id", "zzz"), ("subChannel", "main"), ("content", "hello")], "", ""⟩
      = (initState, .notFound) :=
  (send_absent_notFound initState "zzz" "main" "hello" (by decide) (by decide) (by decide)
    (by decide)).1

/-- Claim C5: admission control checks the caller-identity gate first -
if it denies, the request is rejected with too-many-requests and the
state is returned untouched, whatever the tunnel gate would say; the
tunnel gate is checked second and its denial likewise rejects without
mutation; and when no tunnel id is resolvable from the request the
tunnel gate is never consulted - the outcome is the same for every
tunnel-gate decision function. -/
theorem rate_limit_gates {α : Type} (ipAllow tunnelAllow : String → Bool)
    (next : ServerState → Request → ServerState × α) (st : ServerState) (r : Request) :
    (ipAllow (clientIp r) = false →
        withRateLimit ipAllow tunnelAllow next st r = (st, .tooManyRequests)) ∧
    (ipAllow (clientIp r) = true → resolveTunnelId r ≠ "" →
        tunnelAllow (resolveTunnelId r) = false →
        withRateLimit ipAllow tunnelAllow next st r = (st, .tooManyRequests)) ∧
    (resolveTunnelId r = "" → ∀ ta : String → Bool,
        withRateLimit ipAllow ta next st r = withRateLimit ipAllow tunnelAllow next st r) := by
  refine ⟨?_, ?_, ?_⟩
  · intro h
    simp [withRateLimit, h]
  · intro h1 h2 h3
    simp [withRateLimit, h1, h2, h3]
  · intro h ta
    simp [withRateLimit, h]

/-- Concrete instance of C5: an identity-gate denial rejects the request
and leaves the state unchanged. -/
theorem rate_limit_gates_witness :
    withRateLimit (fun _ => false) (fun _ => true) (fun st _ => (st, (0 : Nat)))
      initState ⟨.GET, [], "addr", ""⟩ = (initState, .tooManyRequests) :=
  (rate_limit_gates (fun _ => false) (fun _ => true) (fun st _ => (st, 0)) initState
    ⟨.GET, [], "addr", ""⟩).1 rfl

/-- Claim C6 (spec-modelled sweeper): in a registry with distinct tunnel
ids, a tunnel created at time T is absent after any sweep run strictly
later than T plus the time-to-live - the sweeper removes every tunnel
whose age exceeds the time-to-live - and it stays absent after every
further sweep, so every check at or after expiry that follows the next
sweep cycle finds it gone. -/
theorem sweeper_removes_expired (reg : List (String × Nat)) (id : String) (T now ttl : Nat)
    (hkeys : (reg.map Prod.fst).Nodup) (hmem : assocGet reg id = some T)
    (hexp : T + ttl < now) :
    assocGet (sweepTunnels now ttl reg) id = none ∧
    ∀ later, assocGet (sweepTunnels later ttl (sweepTunnels now ttl reg)) id = none := by
  have h1 : assocGet (sweepTunnels now ttl reg) id = none := by
    apply assocGet_eq_none_of_not_mem
    intro v hv
    have hmf := List.mem_filter.mp hv
    have hvT : v = T := assoc_nodup_eq reg hkeys id v T hmf.1 (assocGet_mem reg id T hmem)
    have hkeep : now - v ≤ ttl := by simpa using hmf.2
    omega
  exact ⟨h1, fun later => assocGet_filter_none _ _ _ h1⟩

/-- Concrete instance of C6 at the default configuration: a tunnel
created at time 0 is gone after the sweep at minute 10 with the default
5-minute time-to-live. -/
theorem sweeper_removes_expired_witness :
    assocGet (sweepTunnels cleanUpInterval timeToLive [("t", 0)]) "t" = none :=
  (sweeper_removes_expired [("t", 0)] "t" 0 cleanUpInterval timeToLive (by decide) (by decide)
    (by decide)).1

/-- Claim C7 (spec-modelled delete): for every tunnel present in the auth
registry, delete with a token different from the one stored at creation
returns Unauthorized and leaves the registry unchanged with the tunnel
still retrievable, while delete with the stored token returns Ok and
removes it, after which a lookup of the id finds nothing (NotFound). -/
theorem delete_requires_token (reg : List (String × String)) (id token stored : String)
    (hmem : assocGet reg id = some stored) :
    (token ≠ stored →
        deleteTunnel reg id token = (.unauthorized, reg) ∧ assocGet reg id = some stored) ∧
    (deleteTunnel reg id stored = (.ok, assocRemove reg id) ∧
        assocGet (assocRemove reg id) id = none) := by
  refine ⟨fun h => ⟨?_, hmem⟩, ?_, assocGet_assocRemove reg id⟩
  · simp [deleteTunnel, hmem, h]
  · simp [deleteTunnel, hmem]

/-- Concrete instance of C7: a wrong token is Unauthorized and keeps the
tunnel; the right token deletes it. -/
theorem delete_requires_token_witness :
    deleteTunnel [("t", "s3cret")] "t" "wrong" = (.unauthorized, [("t", "s3cret")]) ∧
    deleteTunnel [("t", "s3cret")] "t" "s3cret" = (.ok, []) := by
  have h := delete_requires_token [("t", "s3cret")] "t" "wrong" "s3cret" (by decide)
  refine ⟨(h.1 (by decide)).1, ?_⟩
  rw [h.2.1]
  decide

/-- Claim C8, counterexample: the GET-query form of Send does NOT default
the sub-channel to main - with no sub-channel parameter it rejects the
request as a bad request, while the same request with subChannel main
succeeds. -/
theorem subchannel_defaults_main_cex :
    (sendToTunnel ⟨[("t", freshTunnel "t")], []⟩
        ⟨.GET, [("id", "t"), ("content", "hello")], "", ""⟩).2 = .badRequest ∧
    (sendToTunnel ⟨[("t", freshTunnel "t")], []⟩
        ⟨.GET, [("subChannel", "main"), ("id", "t"), ("content", "hello")], "", ""⟩).2 = .ok := by
  decide

/-- Claim C8 (amended to exclude the GET form of Send): for every request
carrying no sub-channel in either spelling, Get, Subscribe/stream, the
POST form of Send, and Create (which reads no sub-channel) behave exactly
as if subChannel main had been supplied; the GET form of Send instead
rejects such requests, as the counterexample shows. -/
theorem subchannel_defaults_main (st : ServerState) (r : Request)
    (h1 : qget r "subChannel" = "") (h2 : qget r "subchannel" = "") :
    getTunnelContent st r
      = getTunnelContent st ⟨r.method, ("subChannel", "main") :: r.params, r.remoteAddr, r.xForwardedFor⟩ ∧
    streamTunnelContent st r
      = streamTunnelContent st ⟨r.method, ("subChannel", "main") :: r.params, r.remoteAddr, r.xForwardedFor⟩ ∧
    (r.method = .POST →
      sendToTunnel st r
        = sendToTunnel st ⟨r.method, ("subChannel", "main") :: r.params, r.remoteAddr, r.xForwardedFor⟩) ∧
    (∀ rand, createTunnel st r rand
        = createTunnel st ⟨r.method, ("subChannel", "main") :: r.params, r.remoteAddr, r.xForwardedFor⟩ rand) := by
  obtain ⟨m, ps, ra, xf⟩ := r
  simp only [qget, subGet] at h1 h2
  refine ⟨?_, ?_, ?_, ?_⟩
  · cases m <;>
      simp [getTunnelContent, extractIdSub, qget, subGet, assocGet, h1, h2]
  · cases m <;>
      simp [streamTunnelContent, extractIdSub, qget, subGet, assocGet, h1, h2]
  · intro hm
    subst hm
    simp [sendToTunnel, qget, subGet, assocGet, h1, h2]
  · intro rand
    cases m <;>
      simp [createTunnel, qget, subGet, assocGet]

/-- Concrete instance of C8: Get without a sub-channel equals Get with
subChannel main. -/
theorem subchannel_defaults_main_witness :
    getTunnelContent initState ⟨.GET, [("id", "t")], "", ""⟩
      = getTunnelContent initState ⟨.GET, [("subChannel", "main"), ("id", "t")], "", ""⟩ :=
  (subchannel_defaults_main initState ⟨.GET, [("id", "t")], "", ""⟩ (by decide) (by decide)).1

/-- Claim C9: an id generated with no id supplied has exactly 6
characters; the character at each position i is exactly the charset
entry selected by the i-th random draw, so positions depend only on
their own draw and each in-range draw is hit; the charset has no
duplicate characters (so the uniform draw on indices induces the uniform
distribution on the 52-character alphabet of unambiguous uppercase
letters, digits and punctuation); every generated character belongs to
the charset; and creating with the generated id installs a fresh empty
tunnel under it even when a tunnel with that id already exists -
collision simply overwrites, uniqueness is not guaranteed. -/
theorem generated_id_shape :
    (∀ rand : Nat → Fin idCharset.length, (generateRandomID 6 rand).length = 6) ∧
    (∀ (rand : Nat → Fin idCharset.length) (i : Nat)
        (h : i < (generateRandomID 6 rand).toList.length),
        (generateRandomID 6 rand).toList.get ⟨i, h⟩ = idCharset.get (rand i)) ∧
    idCharset.Nodup ∧ idCharset.length = 52 ∧
    (∀ rand : Nat → Fin idCharset.length,
        ∀ ch ∈ (generateRandomID 6 rand).toList, ch ∈ idCharset) ∧
    (∀ (st : ServerState) (rand : Nat → Fin idCharset.length),
        assocGet (createTunnel st ⟨.GET, [], "", ""⟩ rand).1.tunnels (generateRandomID 6 rand)
          = some (freshTunnel (generateRandomID 6 rand))) := by
  refine ⟨?_, ?_, by decide, by decide, ?_, ?_⟩
  · intro rand
    simp [generateRandomID, String.length]
  · intro rand i h
    simp [generateRandomID, String.toList, List.getElem_map, List.getElem_range]
  · intro rand ch hch
    simp only [generateRandomID, String.toList, List.mem_map] at hch
    obtain ⟨i, _, rfl⟩ := hch
    exact List.get_mem _ _ _
  · intro st rand
    simp [createTunnel, qget, subGet, assocGet, insertFresh, assocGet_assocSet_self]

/-- Concrete instance of C9: with every draw 0 the generated id has
length 6 and its first character is A. -/
theorem generated_id_shape_witness :
    (generateRandomID 6 rand0).length = 6 ∧
    (generateRandomID 6 rand0).toList.get ⟨0, by decide⟩ = 'A' := by
  refine ⟨generated_id_shape.1 rand0, ?_⟩
  have h := generated_id_shape.2.1 rand0 0 (by decide)
  rw [h]
  decide

/-- Claim C10: in every state reachable from the initial state, every
value stored in any tunnel's sub-channel mapping is a non-empty string;
creation installs a tunnel with an empty sub-channel mapping; a Send
carrying empty content is rejected as a validation error with the state
returned unchanged (for both request forms, POST and GET); and in every
reachable state the stored value of a sub-channel reads as the empty
string - the trigger of Get's Empty outcome - exactly when that
sub-channel has no entry at all, i.e. has never been written since the
tunnel's mapping was installed. -/
theorem subchannel_values_nonempty (ops : List Op) :
    tunnelsNonempty (run ops) ∧
    (∀ (st : ServerState) (id : String),
        assocGet (insertFresh st id).tunnels id = some (freshTunnel id) ∧
        (freshTunnel id).SubChannels = []) ∧
    (∀ (st : ServerState) (r : Request), qget r "content" = "" → r.method ≠ .OTHER →
        sendToTunnel st r = (st, .badRequest)) ∧
    (∀ (id : String) (t : Tunnel) (sc : String),
        assocGet (run ops).tunnels id = some t →
        (subGet t.SubChannels sc = "" ↔ assocGet t.SubChannels sc = none)) := by
  have hrun : tunnelsNonempty (run ops) :=
    tunnelsNonempty_foldl ops initState tunnelsNonempty_initState
  refine ⟨hrun, ?_, ?_, ?_⟩
  · intro st id
    exact ⟨by simp [insertFresh, assocGet_assocSet_self], rfl⟩
  · intro st r hc hm
    obtain ⟨m, ps, ra, xf⟩ := r
    cases m with
    | GET => simp_all [sendToTunnel, qget]
    | POST => simp_all [sendToTunnel, qget]
    | OTHER => simp at hm
  · intro id t sc hget
    cases hv : assocGet t.SubChannels sc with
    | none => simp [subGet, hv]
    | some v =>
        have hne : v ≠ "" := hrun id t hget sc v hv
        simp [subGet, hv, hne]

/-- Concrete instance of C10: a Send with empty content is rejected with
the state unchanged. -/
theorem subchannel_values_nonempty_witness :
    sendToTunnel initState ⟨.POST, [("id", "t")], "", ""⟩ = (initState, .badRequest) :=
  (subchannel_values_nonempty []).2.2.1 initState ⟨.POST, [("id", "t")], "", ""⟩
    (by decide) (by decide)
